import Mathlib

/-!
Shallow embedding of the lk2nd secondary-CPU bring-up subsystem:
the device-tree resolvers and boot dispatcher of `app/aboot/bootapp/boot.c`
and the Family-B (msm8994) power sequencer of
`lk2nd/smp/gpl/cortex-a-msm8994.c`.

Pure C functions become Lean functions; hardware and logging side effects
become explicit event traces; the memory-mapped register file of the
sequencer becomes an explicit machine state threaded through the writes.
-/

/-- Severity levels of the `dprintf` diagnostics used by this code. -/
inductive Sev where
  | info
  | critical
deriving DecidableEq

/-- Diagnostic messages emitted by `boot.c`, one constructor per `dprintf`
format string, carrying the formatted arguments. -/
inductive LogMsg where
  | cannotReadProp (name : String) (len : Int)
  | cannotFindNode (prop nodeName : String) (err : Int)
  | cannotFindCache (err : Int)
  | skipBoot (mpidr : Nat)
  | booting (mpidr acc : Nat)
deriving DecidableEq

/-- Compiled-in power-sequencing strategy: exactly one of the preprocessor
symbols `CPU_BOOT_CORTEX_A`, `CPU_BOOT_KPSSV1`, `CPU_BOOT_KPSSV2` is
defined per build. -/
inductive Strategy where
  | cortexA
  | kpssv1
  | kpssv2
deriving DecidableEq

/-- Observable events of the `boot.c` dispatcher and resolvers: log lines,
pure device-tree reads (`fdt_getprop`, `lkfdt_lookup_phandle`), the call
into the selected power sequencer, and the settle delay. -/
inductive Ev where
  | log (sev : Sev) (msg : LogMsg)
  | getprop (node : Int) (name : String)
  | phandle (node : Int) (name : String)
  | invokeSeq (strat : Strategy) (reg extraReg : Nat)
  | delay (usec : Nat)
deriving DecidableEq

/-- True for events that only observe state (tree reads and log lines),
false for events with hardware effects (sequencer invocation, delay). -/
def Ev.isReadOrLog : Ev → Bool
  | .log .. => true
  | .getprop .. => true
  | .phandle .. => true
  | .invokeSeq .. => false
  | .delay .. => false

/-- True exactly for a power-sequencer invocation, the only event through
which register writes can happen in the dispatcher model. -/
def Ev.isInvoke : Ev → Bool
  | .invokeSeq .. => true
  | _ => false

/-- A flattened device tree, at the level of detail `boot.c` observes it.
`getprop n p` models `fdt_getprop(dtb, n, p, &len)`: it returns the length
in bytes (a negative libfdt error code when the property is absent)
together with the word offset of the property data inside the blob.
`blob i` is the CPU-order value of the 32-bit big-endian word at word
offset `i` of the blob (`fdt32_to_cpu` of `((const fdt32_t *)blob)[i]`).
`phandles n p` models `lkfdt_lookup_phandle(dtb, n, p)` (negative on
failure); `nodeName` models `fdt_get_name`. The tree is immutable. -/
structure Dtb where
  getprop : Int → String → Int × Nat
  blob : Nat → Nat
  phandles : Int → String → Int
  nodeName : Int → String

/-- Model of `read_phandle_value_indexed` from `boot.c`: read the
`index`-th 32-bit word of property `name` on `node`. Mirrors the source
exactly: the only length check is `len < (int)sizeof(*val)`, i.e.
`len < 4`; when it passes, the word at blob offset `off + index` is read
via `fdt32_to_cpu(*(val + index))`, whether or not that word lies inside
the property. On failure the zero sentinel is returned and one CRITICAL
diagnostic is printed. -/
def read_phandle_value_indexed (dtb : Dtb) (node : Int) (name : String)
    (index : Nat) : Nat × List Ev :=
  let r := dtb.getprop node name
  if r.1 < 4 then
    (0, [.getprop node name, .log .critical (.cannotReadProp name r.1)])
  else
    (dtb.blob (r.2 + index), [.getprop node name])

/-- Model of `read_phandle_reg_indexed` from `boot.c`: resolve the
phandle property `prop` on `node` to a target node, then read the target's
`reg` property at word index `used_index = index * 2` (tuples are
`(address, size)` pairs, so doubling selects the address of pair
`index`). -/
def read_phandle_reg_indexed (dtb : Dtb) (node : Int) (prop : String)
    (index : Nat) : Nat × List Ev :=
  let used_index := index * 2
  let target := dtb.phandles node prop
  if target < 0 then
    (0, [.phandle node prop,
         .log .critical (.cannotFindNode prop (dtb.nodeName node) target)])
  else
    let r := read_phandle_value_indexed dtb target "reg" used_index
    (r.1, .phandle node prop :: r.2)

/-- Model of `read_phandle_value`: `read_phandle_value_indexed` at index 0. -/
def read_phandle_value (dtb : Dtb) (node : Int) (name : String) :
    Nat × List Ev :=
  read_phandle_value_indexed dtb node name 0

/-- Model of `read_phandle_reg`: `read_phandle_reg_indexed` at index 0. -/
def read_phandle_reg (dtb : Dtb) (node : Int) (prop : String) :
    Nat × List Ev :=
  read_phandle_reg_indexed dtb node prop 0

/-- Model of `cpu_boot` from `boot.c`. `cur` is the value returned by the
`read_mpidr()` hardware read (supplied as an input to the embedding);
`strat` is the preprocessor-selected strategy. The boolean result is the
C return value; all side effects appear in the event trace in program
order. -/
def cpu_boot (strat : Strategy) (dtb : Dtb) (node : Int) (mpidr cur : Nat) :
    Bool × List Ev :=
  if mpidr = cur then
    (true, [.log .info (.skipBoot mpidr)])
  else
    let ra := read_phandle_reg dtb node "qcom,acc"
    if ra.1 = 0 then
      (false, ra.2)
    else
      let ev0 := ra.2 ++ [.log .info (.booting mpidr ra.1)]
      match strat with
      | .cortexA =>
        let re := read_phandle_reg dtb node "clocks"
        (true, ev0 ++ re.2 ++ [.invokeSeq .cortexA ra.1 re.1, .delay 100])
      | .kpssv1 =>
        let re := read_phandle_reg dtb node "qcom,saw"
        if re.1 = 0 then
          (false, ev0 ++ re.2)
        else
          (true, ev0 ++ re.2 ++ [.invokeSeq .kpssv1 ra.1 re.1, .delay 100])
      | .kpssv2 =>
        let nlc := dtb.phandles node "next-level-cache"
        let ev1 := ev0 ++ [.phandle node "next-level-cache"]
        if nlc < 0 then
          (false, ev1 ++ [.log .critical (.cannotFindCache nlc)])
        else
          let re := read_phandle_reg dtb nlc "qcom,saw"
          if re.1 = 0 then
            (false, ev1 ++ re.2)
          else
            (true, ev1 ++ re.2 ++ [.invokeSeq .kpssv2 ra.1 re.1, .delay 100])

/-- Events of the boot-address setter: the modern `scm_call2` (carrying the
fields of the `scmcall_arg` structure before macro packing), the legacy
`scm_call_atomic2`, and the fallback log line. -/
inductive ScmEv where
  | call2 (svc cmd nargs addr x3 x4 : Nat) (x5 : List Nat)
  | callAtomic2 (svc cmd arg1 arg2 : Nat)
  | logFallback
deriving DecidableEq

/-- Command identifier `QCOM_SCM_BOOT_SET_ADDR` from `boot.c`. -/
def QCOM_SCM_BOOT_SET_ADDR : Nat := 0x01

/-- Flag set `QCOM_SCM_BOOT_FLAG_COLD_ALL = 0 | BIT(0) | BIT(3) | BIT(5)`
from `boot.c`. -/
def QCOM_SCM_BOOT_FLAG_COLD_ALL : Nat := 0 ||| (1 <<< 0) ||| (1 <<< 3) ||| (1 <<< 5)

/-- Command identifier `QCOM_SCM_BOOT_SET_ADDR_MC` from `boot.c`. -/
def QCOM_SCM_BOOT_SET_ADDR_MC : Nat := 0x11

/-- Flag `QCOM_SCM_BOOT_MC_FLAG_AARCH64 = BIT(0)` from `boot.c`. -/
def QCOM_SCM_BOOT_MC_FLAG_AARCH64 : Nat := 1 <<< 0

/-- Flag `QCOM_SCM_BOOT_MC_FLAG_COLDBOOT = BIT(1)` from `boot.c`. -/
def QCOM_SCM_BOOT_MC_FLAG_COLDBOOT : Nat := 1 <<< 1

/-- Modelled from the spec: the secure-monitor service identifier
`SCM_SVC_BOOT` comes from the external `scm.h` header, which is not part
of this repository. Both ABI paths pass the same identifier, so its
concrete value is irrelevant to the claims and is fixed arbitrarily. -/
def SCM_SVC_BOOT : Nat := 1

/-- Modelled from the spec: the value of `~0UL` on the 32-bit LK platform,
used as the full-mask core selector in the multi-core call. -/
def FULL_MASK : Nat := 0xFFFFFFFF

/-- Model of `cpu_boot_set_addr` from `boot.c`. `armv8_support` is the
result of the `is_scm_armv8_support()` capability probe (an external
query, supplied as an input); the returned list is the trace of
secure-monitor calls and log lines, in program order. The C return value
is whatever the underlying scm call returns and is not modelled. -/
def cpu_boot_set_addr (armv8_support : Bool) (addr : Nat) (arm64 : Bool) :
    List ScmEv :=
  let aarch64 := if arm64 then QCOM_SCM_BOOT_MC_FLAG_AARCH64 else 0
  if armv8_support then
    [.call2 SCM_SVC_BOOT QCOM_SCM_BOOT_SET_ADDR_MC 6 addr FULL_MASK FULL_MASK
      [FULL_MASK, FULL_MASK, aarch64 ||| QCOM_SCM_BOOT_MC_FLAG_COLDBOOT]]
  else
    [.logFallback,
     .callAtomic2 SCM_SVC_BOOT QCOM_SCM_BOOT_SET_ADDR
       QCOM_SCM_BOOT_FLAG_COLD_ALL addr]

/-- Register offset `CPU_PWR_CTL` from `cortex-a-msm8994.c`. -/
def CPU_PWR_CTL : Nat := 0x4

/-- Register offset `APC_PWR_GATE_CTL` from `cortex-a-msm8994.c`. -/
def APC_PWR_GATE_CTL : Nat := 0x14

/-- Register offset `L1_RST_DIS` from `cortex-a-msm8994.c`. -/
def L1_RST_DIS : Nat := 0x284

/-- Register offset `L2_VREG_CTL` from `cortex-a-msm8994.c`. -/
def L2_VREG_CTL : Nat := 0x1c

/-- Register offset `L2_PWR_CTL` from `cortex-a-msm8994.c`. -/
def L2_PWR_CTL : Nat := 0x14

/-- Register offset `L2_PWR_CTL_OVERRIDE` from `cortex-a-msm8994.c`. -/
def L2_PWR_CTL_OVERRIDE : Nat := 0xc

/-- Status mask `L2_PWR_STATUS_L2_HS_STS_MSM8994 = BIT(9) | BIT(28)` from
`cortex-a-msm8994.c`. -/
def L2_PWR_STATUS_L2_HS_STS_MSM8994 : Nat := (1 <<< 9) ||| (1 <<< 28)

/-- Reduction of a `uint32_t` address computation modulo `2^32`. -/
def w32 (x : Nat) : Nat := x % 4294967296

/-- One recorded `writel`: target address, value written, and the
critical-section nesting depth in force when the write was issued
(0 means local interrupts were enabled). -/
structure WEv where
  addr : Nat
  val : Nat
  depth : Nat
deriving DecidableEq

/-- Machine state seen by the msm8994 sequencer: the memory-mapped
register file, the current critical-section nesting depth, and the trace
of writes issued so far (in program order). `dsb()`, `udelay()` and
`dprintf` neither touch the register file nor emit writes and are
therefore invisible in this state. -/
structure M where
  mem : Nat → Nat
  depth : Nat
  trace : List WEv

/-- Model of `writel(v, a)`: record the write (tagged with the current
nesting depth) and update the register file. -/
def writel (v a : Nat) (s : M) : M :=
  { mem := fun x => if x = a then v else s.mem x
    depth := s.depth
    trace := s.trace ++ [⟨a, v, s.depth⟩] }

/-- Model of `readl(a)`: a pure read of the register file. -/
def readl (a : Nat) (s : M) : Nat :=
  s.mem a

/-- Model of `enter_critical_section()`: one more nesting level. -/
def enter_critical_section (s : M) : M :=
  { s with depth := s.depth + 1 }

/-- Model of `exit_critical_section()`: one less nesting level. -/
def exit_critical_section (s : M) : M :=
  { s with depth := s.depth - 1 }

/-- Model of `msm_spm_turn_on_cpu_rail` from `cortex-a-msm8994.c`: the
Q2S write (only when `vctl_base_1` is non-zero), then the two voltage
writes to `vctl_base_0 + L2_VREG_CTL` (value masked to 8 bits, then the
fixed enable value `0x30080`), each followed by a barrier and a settle
delay. -/
def msm_spm_turn_on_cpu_rail (vctl_base_0 vctl_base_1 vctl_val : Nat)
    (s : M) : M :=
  let s := if vctl_base_1 ≠ 0 then writel 0x2 (w32 vctl_base_1) s else s
  let s := writel (vctl_val % 256) (w32 (vctl_base_0 + L2_VREG_CTL)) s
  writel 0x30080 (w32 (vctl_base_0 + L2_VREG_CTL)) s

/-- Model of `power_on_l2_cache_msm8994` from `cortex-a-msm8994.c`: if the
L2 power-status bits are already set the function returns at once (no
write at all, rail writes included); otherwise it powers the rail, then
inside a critical section replays the documented ten-write L2 power-up
recipe. -/
def power_on_l2_cache_msm8994 (l2ccc_base vctl_base_0 vctl_base_1 vctl_val : Nat)
    (s : M) : M :=
  if readl (w32 (l2ccc_base + L2_PWR_CTL)) s &&& L2_PWR_STATUS_L2_HS_STS_MSM8994 ≠ 0 then
    s
  else
    let s := msm_spm_turn_on_cpu_rail vctl_base_0 vctl_base_1 vctl_val s
    let s := enter_critical_section s
    let s := writel 0x00000000 (w32 (l2ccc_base + L1_RST_DIS)) s
    let s := writel 0x00400000 (w32 (l2ccc_base + L2_PWR_CTL_OVERRIDE)) s
    let s := writel 0x00029716 (w32 (l2ccc_base + L2_PWR_CTL)) s
    let s := writel 0x00023716 (w32 (l2ccc_base + L2_PWR_CTL)) s
    let s := writel 0x0002371E (w32 (l2ccc_base + L2_PWR_CTL)) s
    let s := writel 0x0002371C (w32 (l2ccc_base + L2_PWR_CTL)) s
    let s := writel 0x0002361C (w32 (l2ccc_base + L2_PWR_CTL)) s
    let s := writel 0x00022218 (w32 (l2ccc_base + L2_PWR_CTL)) s
    let s := writel 0x10022218 (w32 (l2ccc_base + L2_PWR_CTL)) s
    let s := writel 0x00000000 (w32 (l2ccc_base + L2_PWR_CTL_OVERRIDE)) s
    exit_critical_section s

/-- Model of `cpu_boot_cortex_a_msm8994` from `cortex-a-msm8994.c`: the
optional L2/rail phase (only when `l2ccc_base` is non-zero), then the
eight core-enable writes inside a critical section. -/
def cpu_boot_cortex_a_msm8994 (base l2ccc_base vctl_base_0 vctl_base_1 vctl_val : Nat)
    (s : M) : M :=
  let s := if l2ccc_base ≠ 0 then
    power_on_l2_cache_msm8994 l2ccc_base vctl_base_0 vctl_base_1 vctl_val s
  else s
  let s := enter_critical_section s
  let s := writel 0x00000001 (w32 (base + APC_PWR_GATE_CTL)) s
  let s := writel 0x00000003 (w32 (base + APC_PWR_GATE_CTL)) s
  let s := writel 0x00000079 (w32 (base + CPU_PWR_CTL)) s
  let s := writel 0x0000007D (w32 (base + CPU_PWR_CTL)) s
  let s := writel 0x0000003D (w32 (base + CPU_PWR_CTL)) s
  let s := writel 0x0000003C (w32 (base + CPU_PWR_CTL)) s
  let s := writel 0x0000000C (w32 (base + CPU_PWR_CTL)) s
  let s := writel 0x0000008C (w32 (base + CPU_PWR_CTL)) s
  exit_critical_section s

/-- Write list of the rail phase (`msm_spm_turn_on_cpu_rail`) at
critical-section depth `d`, as it appears in the trace. -/
def railWrites (vctl_base_0 vctl_base_1 vctl_val d : Nat) : List WEv :=
  (if vctl_base_1 ≠ 0 then [⟨w32 vctl_base_1, 0x2, d⟩] else []) ++
  [⟨w32 (vctl_base_0 + L2_VREG_CTL), vctl_val % 256, d⟩,
   ⟨w32 (vctl_base_0 + L2_VREG_CTL), 0x30080, d⟩]

/-- Write list of the L2 cache recipe at critical-section depth `d`. -/
def cacheWrites (l2ccc_base d : Nat) : List WEv :=
  [⟨w32 (l2ccc_base + L1_RST_DIS), 0x00000000, d⟩,
   ⟨w32 (l2ccc_base + L2_PWR_CTL_OVERRIDE), 0x00400000, d⟩,
   ⟨w32 (l2ccc_base + L2_PWR_CTL), 0x00029716, d⟩,
   ⟨w32 (l2ccc_base + L2_PWR_CTL), 0x00023716, d⟩,
   ⟨w32 (l2ccc_base + L2_PWR_CTL), 0x0002371E, d⟩,
   ⟨w32 (l2ccc_base + L2_PWR_CTL), 0x0002371C, d⟩,
   ⟨w32 (l2ccc_base + L2_PWR_CTL), 0x0002361C, d⟩,
   ⟨w32 (l2ccc_base + L2_PWR_CTL), 0x00022218, d⟩,
   ⟨w32 (l2ccc_base + L2_PWR_CTL), 0x10022218, d⟩,
   ⟨w32 (l2ccc_base + L2_PWR_CTL_OVERRIDE), 0x00000000, d⟩]

/-- Write list of the core-enable phase at critical-section depth `d`. -/
def coreWrites (base d : Nat) : List WEv :=
  [⟨w32 (base + APC_PWR_GATE_CTL), 0x00000001, d⟩,
   ⟨w32 (base + APC_PWR_GATE_CTL), 0x00000003, d⟩,
   ⟨w32 (base + CPU_PWR_CTL), 0x00000079, d⟩,
   ⟨w32 (base + CPU_PWR_CTL), 0x0000007D, d⟩,
   ⟨w32 (base + CPU_PWR_CTL), 0x0000003D, d⟩,
   ⟨w32 (base + CPU_PWR_CTL), 0x0000003C, d⟩,
   ⟨w32 (base + CPU_PWR_CTL), 0x0000000C, d⟩,
   ⟨w32 (base + CPU_PWR_CTL), 0x0000008C, d⟩]

/-- Concrete device tree used to exercise the resolvers: node 1 is a CPU
node whose `qcom,acc` phandle resolves to node 2 (one `reg` pair at blob
offset 200: address `0xF9000000`, size `0x1000`) and whose
`qcom,vctl-node` phandle resolves to node 3 (two `reg` pairs at blob
offset 100: `(0xf9012000, 0x1000)` and `(0xf900d210, 0x8)`); node 4 has a
single-word property `someprop` (length 4 bytes) at blob offset 300, with
the unrelated blob word 42 lying just past its end; everything else is
absent. -/
def testDtb : Dtb where
  getprop := fun n p =>
    if n = 2 ∧ p = "reg" then (8, 200)
    else if n = 3 ∧ p = "reg" then (16, 100)
    else if n = 4 ∧ p = "someprop" then (4, 300)
    else (-1, 0)
  blob := fun i =>
    if i = 100 then 0xf9012000
    else if i = 101 then 0x1000
    else if i = 102 then 0xf900d210
    else if i = 103 then 0x8
    else if i = 200 then 0xF9000000
    else if i = 201 then 0x1000
    else if i = 300 then 7
    else if i = 301 then 42
    else 0
  phandles := fun n p =>
    if n = 1 ∧ p = "qcom,acc" then 2
    else if n = 1 ∧ p = "qcom,vctl-node" then 3
    else -1
  nodeName := fun n => if n = 1 then "cpu1" else "node"

/-- Machine state whose L2 power-status register (like every register)
reads as zero: status bits clear, no critical section, empty trace. -/
def memClear : M := ⟨fun _ => 0, 0, []⟩

/-- Machine state in which every register reads `0x200`, so the L2
power-status bit 9 is already set ("cache already on"). -/
def memSet : M := ⟨fun _ => 0x200, 0, []⟩

/-- Every event emitted by `read_phandle_value_indexed` is a pure tree
read or a log line. -/
theorem read_phandle_value_indexed_events_pure (dtb : Dtb) (node : Int)
    (name : String) (index : Nat) :
    ((read_phandle_value_indexed dtb node name index).2.all Ev.isReadOrLog) = true := by
  rcases lt_or_le (dtb.getprop node name).1 4 with h | h
  · simp [read_phandle_value_indexed, h, Ev.isReadOrLog]
  · simp [read_phandle_value_indexed, not_lt.2 h, Ev.isReadOrLog]

/-- Every event emitted by `read_phandle_reg_indexed` is a pure tree read
or a log line. -/
theorem read_phandle_reg_indexed_events_pure (dtb : Dtb) (node : Int)
    (prop : String) (index : Nat) :
    ((read_phandle_reg_indexed dtb node prop index).2.all Ev.isReadOrLog) = true := by
  rcases lt_or_le (dtb.phandles node prop) 0 with h | h
  · simp [read_phandle_reg_indexed, h, Ev.isReadOrLog]
  · simpa [read_phandle_reg_indexed, not_lt.2 h, Ev.isReadOrLog] using
      read_phandle_value_indexed_events_pure dtb (dtb.phandles node prop) "reg" (index * 2)

/-- Two `uint32_t` offsets below `2^32` added to a common base stay
distinct after reduction modulo `2^32`. -/
theorem w32_add_left_inj (b i j : Nat) (hi : i < 4294967296)
    (hj : j < 4294967296) (h : w32 (b + i) = w32 (b + j)) : i = j := by
  unfold w32 at h
  omega

/-- C1: evaluation of `read_phandle_value_indexed` on a present property
of exactly one word (length 4 bytes) at index 1: instead of failing with
the zero sentinel and a critical diagnostic, the code reads the blob word
just past the property's end (here 42) and reports success with no
diagnostic — the length check compares `len` against `4`, not against
`4 * (index + 1)`. -/
theorem read_phandle_value_indexed_reads_past_property_end :
    testDtb.getprop 4 "someprop" = (4, 300) ∧
    read_phandle_value_indexed testDtb 4 "someprop" 1 =
      (42, [Ev.getprop 4 "someprop"]) := by
  constructor
  · rfl
  · rfl

/-- C2: whenever the phandle property resolves (non-negative target) and
the target's `reg` property is present with a valid length, the value
returned is the blob word at `off + index * 2` — the tuple index is
doubled, selecting the address of pair `index`, never the word at offset
`index`. -/
theorem read_phandle_reg_indexed_uses_doubled_index (dtb : Dtb) (node : Int)
    (prop : String) (i : Nat) (target len : Int) (off : Nat)
    (ht : dtb.phandles node prop = target) (h0 : 0 ≤ target)
    (hg : dtb.getprop target "reg" = (len, off)) (hl : 4 ≤ len) :
    (read_phandle_reg_indexed dtb node prop i).1 = dtb.blob (off + i * 2) := by
  unfold read_phandle_reg_indexed read_phandle_value_indexed
  rw [ht, if_neg (by omega), hg]
  rw [if_neg (by omega)]

/-- Witness for C2 on `testDtb`: node 3 has two `(address, size)` pairs in
`reg`, and tuple index 1 yields the second pair's address `0xf900d210`,
not the first pair's size. -/
theorem read_phandle_reg_indexed_uses_doubled_index_witness :
    (read_phandle_reg_indexed testDtb 1 "qcom,vctl-node" 1).1 = 0xf900d210 :=
  read_phandle_reg_indexed_uses_doubled_index testDtb 1 "qcom,vctl-node" 1 3 16 100
    (by decide) (by decide) (by decide) (by decide)

/-- C6: when the requested target identifier equals the value read from
the hardware identifier register, `cpu_boot` returns true (skipped)
immediately with exactly one informational log line in its trace — in
particular no sequencer invocation, no delay and no device-tree access
occurs, under every compiled-in strategy. -/
theorem cpu_boot_skips_current_cpu (strat : Strategy) (dtb : Dtb)
    (node : Int) (mpidr : Nat) :
    cpu_boot strat dtb node mpidr mpidr =
      (true, [Ev.log Sev.info (LogMsg.skipBoot mpidr)]) := by
  unfold cpu_boot
  rw [if_pos rfl]

/-- C7: when the `is_scm_armv8_support` probe reports false, the trace of
`cpu_boot_set_addr` is exactly the fallback log line followed by one
legacy `scm_call_atomic2` with the fixed `QCOM_SCM_BOOT_FLAG_COLD_ALL`
flag set and the supplied address; when the probe reports true, the trace
is exactly one modern multi-core `scm_call2` with full core masks, the
cold-boot flag, the architecture mode flag and the supplied address. -/
theorem cpu_boot_set_addr_modern_and_legacy_paths (addr : Nat) (arm64 : Bool) :
    cpu_boot_set_addr false addr arm64 =
      [ScmEv.logFallback,
       ScmEv.callAtomic2 SCM_SVC_BOOT QCOM_SCM_BOOT_SET_ADDR
         QCOM_SCM_BOOT_FLAG_COLD_ALL addr] ∧
    cpu_boot_set_addr true addr arm64 =
      [ScmEv.call2 SCM_SVC_BOOT QCOM_SCM_BOOT_SET_ADDR_MC 6 addr FULL_MASK
        FULL_MASK
        [FULL_MASK, FULL_MASK,
         (if arm64 then QCOM_SCM_BOOT_MC_FLAG_AARCH64 else 0) |||
           QCOM_SCM_BOOT_MC_FLAG_COLDBOOT]] :=
  ⟨rfl, rfl⟩

/-- C9: the two tree resolvers are pure: repeated calls with the same
arguments against the same (immutable) tree return identical results, and
every event either resolver emits is a read of the tree or a log line —
neither ever emits a hardware effect, so neither has any side effect on
the tree or the machine. -/
theorem resolvers_pure_and_repeatable (dtb : Dtb) (node : Int)
    (name : String) (index : Nat) :
    read_phandle_value_indexed dtb node name index =
      read_phandle_value_indexed dtb node name index ∧
    read_phandle_reg_indexed dtb node name index =
      read_phandle_reg_indexed dtb node name index ∧
    ((read_phandle_value_indexed dtb node name index).2.all Ev.isReadOrLog) = true ∧
    ((read_phandle_reg_indexed dtb node name index).2.all Ev.isReadOrLog) = true :=
  ⟨rfl, rfl, read_phandle_value_indexed_events_pure dtb node name index,
    read_phandle_reg_indexed_events_pure dtb node name index⟩

/-- C5: when the target is not the executing core and the `qcom,acc`
control-register cross-reference resolves to the zero sentinel, `cpu_boot`
returns false under every compiled-in strategy, its trace is exactly the
resolution trace, and every event in it is a pure tree read or a log line
— in particular no sequencer is invoked, so no hardware register write
occurs for that core. -/
theorem cpu_boot_fails_without_acc (strat : Strategy) (dtb : Dtb)
    (node : Int) (mpidr cur : Nat) (hne : mpidr ≠ cur)
    (hacc : (read_phandle_reg dtb node "qcom,acc").1 = 0) :
    cpu_boot strat dtb node mpidr cur =
      (false, (read_phandle_reg dtb node "qcom,acc").2) ∧
    ((cpu_boot strat dtb node mpidr cur).2.all Ev.isReadOrLog) = true := by
  have h1 : cpu_boot strat dtb node mpidr cur =
      (false, (read_phandle_reg dtb node "qcom,acc").2) := by
    simp [cpu_boot, hne, hacc]
  refine ⟨h1, ?_⟩
  rw [h1]
  simpa [read_phandle_reg] using
    read_phandle_reg_indexed_events_pure dtb node "qcom,acc" 0

/-- Witness for C5: on `testDtb`, node 5 has no `qcom,acc` reference, and
bring-up of target 1 from core 0 fails with a read-and-log-only trace. -/
theorem cpu_boot_fails_without_acc_witness :
    cpu_boot Strategy.cortexA testDtb 5 1 0 =
      (false, (read_phandle_reg testDtb 5 "qcom,acc").2) ∧
    ((cpu_boot Strategy.cortexA testDtb 5 1 0).2.all Ev.isReadOrLog) = true :=
  cpu_boot_fails_without_acc Strategy.cortexA testDtb 5 1 0
    (by decide) (by decide)

/-- C8: under the generic Cortex-A strategy, for a non-self target whose
`qcom,acc` reference resolves to a non-zero address, a `clocks` reference
that resolves to the zero sentinel does not cause failure: `cpu_boot`
logs the boot line, invokes the sequencer with the resolved control
register and zero for the clock register, emits the fixed 100 microsecond
settle delay, and returns true. -/
theorem cpu_boot_cortex_a_tolerates_missing_clock (dtb : Dtb) (node : Int)
    (mpidr cur acc : Nat) (hne : mpidr ≠ cur)
    (hacc : (read_phandle_reg dtb node "qcom,acc").1 = acc) (hnz : acc ≠ 0)
    (hclk : (read_phandle_reg dtb node "clocks").1 = 0) :
    cpu_boot Strategy.cortexA dtb node mpidr cur =
      (true, (read_phandle_reg dtb node "qcom,acc").2 ++
        [Ev.log Sev.info (LogMsg.booting mpidr acc)] ++
        (read_phandle_reg dtb node "clocks").2 ++
        [Ev.invokeSeq Strategy.cortexA acc 0, Ev.delay 100]) := by
  subst hacc
  simp [cpu_boot, hne, hnz, hclk]

/-- Witness for C8: on `testDtb`, node 1 resolves `qcom,acc` to address
`0xF9000000` while `clocks` is unresolvable, and bring-up of target 1
from core 0 succeeds, invoking the sequencer with `(0xF9000000, 0)` and
delaying 100 microseconds. -/
theorem cpu_boot_cortex_a_tolerates_missing_clock_witness :
    cpu_boot Strategy.cortexA testDtb 1 1 0 =
      (true, [Ev.phandle 1 "qcom,acc", Ev.getprop 2 "reg",
        Ev.log Sev.info (LogMsg.booting 1 0xF9000000),
        Ev.phandle 1 "clocks",
        Ev.log Sev.critical (LogMsg.cannotFindNode "clocks" "cpu1" (-1)),
        Ev.invokeSeq Strategy.cortexA 0xF9000000 0, Ev.delay 100]) :=
  cpu_boot_cortex_a_tolerates_missing_clock testDtb 1 1 0 0xF9000000
    (by decide) (by decide) (by decide) (by decide)

/-- C10: with `l2ccc_base` equal to zero the whole L2-cache/rail phase of
`cpu_boot_cortex_a_msm8994` is skipped: the trace grows by exactly the
eight core-enable writes, each to `base + APC_PWR_GATE_CTL` or
`base + CPU_PWR_CTL` — no write to any `l2ccc`, `vctl_base_0` or
`vctl_base_1` offset is issued. -/
theorem cpu_boot_cortex_a_msm8994_zero_l2ccc_only_core_writes
    (base vctl_base_0 vctl_base_1 vctl_val : Nat) (s0 : M) :
    (cpu_boot_cortex_a_msm8994 base 0 vctl_base_0 vctl_base_1 vctl_val s0).trace
      = s0.trace ++ coreWrites base (s0.depth + 1) ∧
    (coreWrites base (s0.depth + 1)).length = 8 ∧
    ((coreWrites base (s0.depth + 1)).all fun e =>
      e.addr == w32 (base + APC_PWR_GATE_CTL) ||
        e.addr == w32 (base + CPU_PWR_CTL)) = true := by
  refine ⟨?_, rfl, ?_⟩
  · simp [cpu_boot_cortex_a_msm8994, writel, enter_critical_section,
      exit_critical_section, coreWrites]
  · simp [coreWrites]

/-- After its full (non-skipped) run, `power_on_l2_cache_msm8994` leaves
`0x10022218` in the register at `l2ccc_base + L2_PWR_CTL`: the last write
to that address is the PMIC_APC write, and the only later write targets
`l2ccc_base + L2_PWR_CTL_OVERRIDE`, a distinct address. -/
theorem power_on_l2_cache_msm8994_status_after
    (l2ccc_base vctl_base_0 vctl_base_1 vctl_val : Nat) (s0 : M)
    (h : readl (w32 (l2ccc_base + L2_PWR_CTL)) s0 &&&
      L2_PWR_STATUS_L2_HS_STS_MSM8994 = 0) :
    (power_on_l2_cache_msm8994 l2ccc_base vctl_base_0 vctl_base_1 vctl_val s0).mem
      (w32 (l2ccc_base + L2_PWR_CTL)) = 0x10022218 := by
  have h' : s0.mem (w32 (l2ccc_base + L2_PWR_CTL)) &&&
      L2_PWR_STATUS_L2_HS_STS_MSM8994 = 0 := h
  have hne : w32 (l2ccc_base + L2_PWR_CTL) ≠ w32 (l2ccc_base + L2_PWR_CTL_OVERRIDE) := by
    intro hcontra
    exact absurd (w32_add_left_inj l2ccc_base L2_PWR_CTL L2_PWR_CTL_OVERRIDE
      (by decide) (by decide) hcontra) (by decide)
  simp [power_on_l2_cache_msm8994, msm_spm_turn_on_cpu_rail, writel,
    enter_critical_section, exit_critical_section, readl, h', hne]

/-- C3 (amended): the Family-B cache phase is idempotent. If the status
bits `BIT(9) | BIT(28)` of the word at `l2ccc_base + L2_PWR_CTL` are
already set, `power_on_l2_cache_msm8994` performs zero register writes,
rail writes included, and leaves the machine state untouched. If they are
clear, running the phase twice equals running it once — the full sequence
leaves both status bits set, so the second invocation is skipped and the
rail/cache writes are performed exactly once overall. -/
theorem power_on_l2_cache_msm8994_idempotent
    (l2ccc_base vctl_base_0 vctl_base_1 vctl_val : Nat) (s0 : M) :
    (readl (w32 (l2ccc_base + L2_PWR_CTL)) s0 &&&
        L2_PWR_STATUS_L2_HS_STS_MSM8994 ≠ 0 →
      power_on_l2_cache_msm8994 l2ccc_base vctl_base_0 vctl_base_1 vctl_val s0 = s0) ∧
    (readl (w32 (l2ccc_base + L2_PWR_CTL)) s0 &&&
        L2_PWR_STATUS_L2_HS_STS_MSM8994 = 0 →
      power_on_l2_cache_msm8994 l2ccc_base vctl_base_0 vctl_base_1 vctl_val
          (power_on_l2_cache_msm8994 l2ccc_base vctl_base_0 vctl_base_1 vctl_val s0) =
        power_on_l2_cache_msm8994 l2ccc_base vctl_base_0 vctl_base_1 vctl_val s0) := by
  constructor
  · intro h
    unfold power_on_l2_cache_msm8994
    rw [if_pos h]
  · intro h
    have hmem := power_on_l2_cache_msm8994_status_after l2ccc_base vctl_base_0
      vctl_base_1 vctl_val s0 h
    have hguard : readl (w32 (l2ccc_base + L2_PWR_CTL))
        (power_on_l2_cache_msm8994 l2ccc_base vctl_base_0 vctl_base_1 vctl_val s0) &&&
        L2_PWR_STATUS_L2_HS_STS_MSM8994 ≠ 0 := by
      show (power_on_l2_cache_msm8994 l2ccc_base vctl_base_0 vctl_base_1
        vctl_val s0).mem (w32 (l2ccc_base + L2_PWR_CTL)) &&&
        L2_PWR_STATUS_L2_HS_STS_MSM8994 ≠ 0
      rw [hmem]
      decide
    generalize hs1 : power_on_l2_cache_msm8994 l2ccc_base vctl_base_0
      vctl_base_1 vctl_val s0 = s1 at hguard ⊢
    conv_lhs => unfold power_on_l2_cache_msm8994
    rw [if_pos hguard]

/-- Witness for C3 (amended): with the status bit 9 pre-set (`memSet`)
the phase is a no-op, and from a clear status (`memClear`) running the
phase twice equals running it once. -/
theorem power_on_l2_cache_msm8994_idempotent_witness :
    power_on_l2_cache_msm8994 0x100000 0x200000 0x300000 0x42 memSet = memSet ∧
    power_on_l2_cache_msm8994 0x100000 0x200000 0x300000 0x42
        (power_on_l2_cache_msm8994 0x100000 0x200000 0x300000 0x42 memClear) =
      power_on_l2_cache_msm8994 0x100000 0x200000 0x300000 0x42 memClear :=
  ⟨(power_on_l2_cache_msm8994_idempotent 0x100000 0x200000 0x300000 0x42 memSet).1
      (by decide),
   (power_on_l2_cache_msm8994_idempotent 0x100000 0x200000 0x300000 0x42 memClear).2
      (by decide)⟩

/-- Counterexample to C3 as stated: with the status register pre-set to
already-on (every register reads `0x200`, so bit 9 is set before the
first call), invoking the Family-B sequencer twice performs the
rail/cache writes zero times overall, not exactly once — both
invocations skip the phase, and the only writes in the combined trace are
the core-enable writes to `0x400004` and `0x400014`. -/
theorem msm8994_preset_status_zero_not_one_rail_cache_writes :
    ((cpu_boot_cortex_a_msm8994 0x400000 0x100000 0x200000 0x300000 0x42
        (cpu_boot_cortex_a_msm8994 0x400000 0x100000 0x200000 0x300000 0x42
          memSet)).trace.filter
      (fun e => !(e.addr == 0x400004 || e.addr == 0x400014))).length = 0 ∧
    ¬ ((cpu_boot_cortex_a_msm8994 0x400000 0x100000 0x200000 0x300000 0x42
        (cpu_boot_cortex_a_msm8994 0x400000 0x100000 0x200000 0x300000 0x42
          memSet)).trace.filter
      (fun e => !(e.addr == 0x400004 || e.addr == 0x400014))).length = 1 := by
  decide

/-- Counterexample to C4 as stated: starting from a clear status with
interrupts enabled, the cache power-up phase issues its three
voltage-rail writes before `enter_critical_section()` — the trace of
`power_on_l2_cache_msm8994` contains writes at critical-section depth 0,
so not every register write of the phase happens inside a critical
section. -/
theorem msm8994_rail_writes_outside_critical_section :
    ¬ ((power_on_l2_cache_msm8994 0x100000 0x200000 0x300000 0x42
        memClear).trace.all (fun e => decide (0 < e.depth))) = true ∧
    ((power_on_l2_cache_msm8994 0x100000 0x200000 0x300000 0x42
        memClear).trace.filter (fun e => e.depth == 0)).length = 3 := by
  decide

/-- C4 (amended): placement of the Family-B writes relative to the
critical sections. Starting with interrupts enabled (depth 0) and the L2
status clear, the full sequencer appends exactly the rail writes, then
the ten cache writes, then the eight core-enable writes; every cache
write and every core-enable write is issued at critical-section depth 1,
but the voltage-rail writes precede `enter_critical_section()` and are
issued at depth 0, outside any critical section. -/
theorem msm8994_write_depths (base l2ccc_base vctl_base_0 vctl_base_1 vctl_val : Nat)
    (s0 : M) (hd : s0.depth = 0) (hl2 : l2ccc_base ≠ 0)
    (hclear : readl (w32 (l2ccc_base + L2_PWR_CTL)) s0 &&&
      L2_PWR_STATUS_L2_HS_STS_MSM8994 = 0) :
    (cpu_boot_cortex_a_msm8994 base l2ccc_base vctl_base_0 vctl_base_1 vctl_val s0).trace
      = s0.trace ++ railWrites vctl_base_0 vctl_base_1 vctl_val 0 ++
        cacheWrites l2ccc_base 1 ++ coreWrites base 1 ∧
    ((railWrites vctl_base_0 vctl_base_1 vctl_val 0).all
      (fun e => e.depth == 0)) = true ∧
    ((cacheWrites l2ccc_base 1 ++ coreWrites base 1).all
      (fun e => e.depth == 1)) = true := by
  have h' : s0.mem (w32 (l2ccc_base + L2_PWR_CTL)) &&&
      L2_PWR_STATUS_L2_HS_STS_MSM8994 = 0 := hclear
  refine ⟨?_, ?_, ?_⟩
  · rcases eq_or_ne vctl_base_1 0 with hv1 | hv1 <;>
      simp [cpu_boot_cortex_a_msm8994, power_on_l2_cache_msm8994,
        msm_spm_turn_on_cpu_rail, writel, enter_critical_section,
        exit_critical_section, readl, railWrites, cacheWrites, coreWrites,
        h', hd, hl2, hv1]
  · rcases eq_or_ne vctl_base_1 0 with hv1 | hv1 <;> simp [railWrites, hv1]
  · simp [cacheWrites, coreWrites]

/-- Witness for C4 (amended): the concrete run from `memClear` with
distinct bases produces the rail writes at depth 0 followed by the cache
and core writes at depth 1. -/
theorem msm8994_write_depths_witness :
    (cpu_boot_cortex_a_msm8994 0x400000 0x100000 0x200000 0x300000 0x42
        memClear).trace
      = railWrites 0x200000 0x300000 0x42 0 ++ cacheWrites 0x100000 1 ++
        coreWrites 0x400000 1 ∧
    ((railWrites 0x200000 0x300000 0x42 0).all (fun e => e.depth == 0)) = true ∧
    ((cacheWrites 0x100000 1 ++ coreWrites 0x400000 1).all
      (fun e => e.depth == 1)) = true := by
  have h := msm8994_write_depths 0x400000 0x100000 0x200000 0x300000 0x42
    memClear rfl (by decide) (by decide)
  simpa using h
